import Mathlib

/-!
Verification development for the authentication and token-lifecycle core of a
Node/TypeScript account service.  The definitions below are a shallow
embedding of the source files: the JWT library (`generateAccessToken`,
`generateRefreshToken`, `verifyToken`), the bcrypt wrappers (`hashPassword`,
`comparePassword`), the authentication flow controller (`login`,
`refreshToken`, `logout`, `forgotPassword`, `resetPassword`,
`changePassword`, `verifyEmail`, the Google OAuth callback save), the
authentication middleware (`authenticate`), the authorization helper
(`isOwnerOrAdmin`), the user controller (`updateUser`) and the two-factor
library (`verifyBackupCode`).

Modelling conventions:
- Time is a single abstract clock in milliseconds (`now : Nat`), matching the
  JavaScript `Date.now()` timeline; JWT lifetimes are converted to ms.
- A JWT string is embedded as `Token`: either a well-formed token signed with
  some key (`signed payload exp key`) or an arbitrary non-JWT string
  (`malformed`).  `jwt.verify` succeeds exactly on tokens signed with the
  server secret that are not expired; tampering with a signed token's payload
  yields a token signed with a different (attacker) key.
- `bcrypt.hash` is modelled as a deterministic injective tagging function;
  `bcrypt.compare` re-hashes and compares, so `comparePassword p (hashPassword
  p) = true` and mismatching passwords compare `false`.
- Mongoose documents are `Account` records (store-managed `createdAt` /
  `updatedAt` timestamps are not tracked).  `findOne` / `findById` lookups are
  passed to each controller either as the already-found `Option Account` or as
  a lookup function `Nat → Option Account`; tokens/ids are `Nat`.
- Each controller returns the HTTP response it sends together with the account
  record it `save`s (`none` when no save is executed) and any tokens it
  issues.  Request validation (Zod) happens before the modelled bodies and is
  outside the embedding.
-/

namespace NodeAuth

inductive Role where
  | user
  | admin
deriving DecidableEq, Repr

/-- The claim set embedded in every issued JWT (`JWTPayload` in `lib/jwt.ts`). -/
structure JWTPayload where
  userId : Nat
  email : String
  role : Role
  tokenVersion : Nat
deriving DecidableEq, Repr

/-- Shallow embedding of a JWT string: a well-formed token signed with `key`,
or any other string. -/
inductive Token where
  | signed (payload : JWTPayload) (exp : Nat) (key : Nat)
  | malformed (s : String)
deriving DecidableEq, Repr

/-- `JWT_EXPIRES_IN = '15m'`, in milliseconds. -/
def accessTokenTtl : Nat := 15 * 60 * 1000

/-- `REFRESH_TOKEN_EXPIRES_IN = '7d'`, in milliseconds. -/
def refreshTokenTtl : Nat := 7 * 24 * 60 * 60 * 1000

/-- `generateAccessToken` from `lib/jwt.ts`: signs the payload with the server
secret, expiring `15m` after issuance. -/
def generateAccessToken (secret issuedAt : Nat) (payload : JWTPayload) : Token :=
  Token.signed payload (issuedAt + accessTokenTtl) secret

/-- `generateRefreshToken` from `lib/jwt.ts`: signs the payload with the server
secret, expiring `7d` after issuance. -/
def generateRefreshToken (secret issuedAt : Nat) (payload : JWTPayload) : Token :=
  Token.signed payload (issuedAt + refreshTokenTtl) secret

/-- `verifyToken` from `lib/jwt.ts`: `jwt.verify` returns the decoded payload
for an unexpired token signed with the server secret and the function returns
`null` (here `none`) on every other input, catching all errors. -/
def verifyToken (secret now : Nat) : Token → Option JWTPayload
  | Token.signed payload exp key =>
      if key = secret ∧ now < exp then some payload else none
  | Token.malformed _ => none

/-- `hashPassword` from `lib/password.ts` (bcrypt), modelled as a deterministic
injective tagging of the plaintext. -/
def hashPassword (password : String) : String :=
  String.append "bcrypt$10$" password

/-- `comparePassword` from `lib/password.ts` (bcrypt compare). -/
def comparePassword (password hashed : String) : Bool :=
  hashPassword password == hashed

/-- The account record of `models/user.model.ts` (`IUser`). -/
structure Account where
  id : Nat
  name : String
  email : String
  password : Option String
  googleId : Option Nat
  role : Role
  isEmailVerified : Bool
  emailVerificationToken : Option String
  emailVerificationExpires : Option Nat
  isTwoFactorEnabled : Bool
  twoFactorSecret : Option String
  twoFactorBackupCodes : List String
  tokenVersion : Nat
  refreshToken : Option Token
  refreshTokenExpires : Option Nat
  resetPasswordToken : Option String
  resetPasswordExpires : Option Nat
deriving DecidableEq, Repr

/-- The JWT claim set the controllers build from a user document. -/
def tokenPayload (u : Account) : JWTPayload :=
  { userId := u.id, email := u.email, role := u.role, tokenVersion := u.tokenVersion }

/-- The uniform response envelope (`status`, `success`, `message`). -/
structure HttpResponse where
  status : Nat
  success : Bool
  message : String
deriving DecidableEq, Repr

/-- The minimal principal `authenticate` attaches to `req.user`. -/
structure Principal where
  id : Nat
  email : String
  role : Role
deriving DecidableEq, Repr

/-- Outcome of the `authenticate` middleware: an error response, or `next()`
with a principal attached. -/
inductive AuthResult where
  | denied (response : HttpResponse)
  | granted (principal : Principal)
deriving DecidableEq, Repr

/-- `login` from `auth.controller.ts`.  `found` is the result of
`User.findOne({email}).select('+password')`.  Returns the response, the saved
document (`none` when no save happens) and the issued access/refresh pair. -/
def login (secret now : Nat) (found : Option Account) (password : String) :
    HttpResponse × Option Account × Option (Token × Token) :=
  match found with
  | none => (⟨401, false, "Invalid email or password"⟩, none, none)
  | some user =>
    match user.password with
    | none =>
        (⟨401, false, "This account uses Google OAuth. Please use Google to sign in."⟩,
          none, none)
    | some stored =>
      if comparePassword password stored = false then
        (⟨401, false, "Invalid email or password"⟩, none, none)
      else if user.isEmailVerified = false then
        (⟨403, false,
          "Please verify your email before logging in. Check your inbox for the verification email."⟩,
          none, none)
      else
        let access := generateAccessToken secret now (tokenPayload user)
        let refresh := generateRefreshToken secret now (tokenPayload user)
        let saved := { user with refreshToken := some refresh,
                                 refreshTokenExpires := some (now + refreshTokenTtl) }
        (⟨200, true, "Login successful"⟩, some saved, some (access, refresh))

/-- `authenticate` from `middleware/auth.ts`: verify the bearer token, load the
user, compare `tokenVersion`, require a verified email, attach the principal. -/
def authenticate (secret now : Nat) (token : Option Token)
    (findById : Nat → Option Account) : AuthResult :=
  match token with
  | none => AuthResult.denied ⟨401, false, "Authentication required. Please login."⟩
  | some t =>
    match verifyToken secret now t with
    | none => AuthResult.denied ⟨401, false, "Invalid or expired token. Please login again."⟩
    | some decoded =>
      match findById decoded.userId with
      | none => AuthResult.denied ⟨401, false, "User not found"⟩
      | some user =>
        if user.tokenVersion ≠ decoded.tokenVersion then
          AuthResult.denied ⟨401, false, "Token has been invalidated. Please login again."⟩
        else if user.isEmailVerified = false then
          AuthResult.denied ⟨403, false, "Please verify your email before accessing this resource."⟩
        else
          AuthResult.granted ⟨user.id, user.email, user.role⟩

/-- The stored-refresh-token expiry test of the `refreshToken` controller:
`!user.refreshTokenExpires || user.refreshTokenExpires < new Date()`. -/
def refreshExpired (now : Nat) : Option Nat → Bool
  | none => true
  | some e => decide (e < now)

/-- `refreshToken` controller from `auth.controller.ts`: verify the presented
refresh token, load the user, require the stored token to equal the presented
one and be unexpired, require `tokenVersion` to match, then issue a new access
token only.  This path never saves the user document. -/
def refreshToken (secret now : Nat) (token : Option Token)
    (findById : Nat → Option Account) : HttpResponse × Option Account × Option Token :=
  match token with
  | none => (⟨401, false, "Refresh token is required"⟩, none, none)
  | some t =>
    match verifyToken secret now t with
    | none => (⟨401, false, "Invalid or expired refresh token"⟩, none, none)
    | some decoded =>
      match findById decoded.userId with
      | none => (⟨401, false, "User not found"⟩, none, none)
      | some user =>
        if user.refreshToken ≠ some t ∨ refreshExpired now user.refreshTokenExpires = true then
          (⟨401, false, "Invalid or expired refresh token"⟩, none, none)
        else if user.tokenVersion ≠ decoded.tokenVersion then
          (⟨401, false, "Token has been invalidated. Please login again."⟩, none, none)
        else
          (⟨200, true, "Token refreshed successfully"⟩, none,
            some (generateAccessToken secret now (tokenPayload user)))

/-- `logout` from `auth.controller.ts`: best-effort — when the presented token
verifies and resolves to a user, clear the stored refresh token and its
expiry; in every case respond 200. -/
def logout (secret now : Nat) (token : Option Token)
    (findById : Nat → Option Account) : HttpResponse × Option Account :=
  let saved : Option Account :=
    match token with
    | none => none
    | some t =>
      match verifyToken secret now t with
      | none => none
      | some decoded =>
        match findById decoded.userId with
        | none => none
        | some user => some { user with refreshToken := none, refreshTokenExpires := none }
  (⟨200, true, "Logout successful"⟩, saved)

/-- `forgotPassword` from `auth.controller.ts`.  `resetToken` stands for the
fresh `crypto.randomBytes(32).toString('hex')` value.  The third component
records whether a reset email dispatch was attempted. -/
def forgotPassword (now : Nat) (resetToken : String) (found : Option Account) :
    HttpResponse × Option Account × Bool :=
  match found with
  | none =>
      (⟨200, true, "If an account exists with this email, a password reset link has been sent"⟩,
        none, false)
  | some user =>
      (⟨200, true, "If an account exists with this email, a password reset link has been sent"⟩,
        some { user with resetPasswordToken := some resetToken,
                         resetPasswordExpires := some (now + 60 * 60 * 1000) },
        true)

/-- The `User.findOne({resetPasswordToken: token, resetPasswordExpires: {$gt:
Date.now()}})` query of the `resetPassword` controller. -/
def findByResetToken (now : Nat) (token : String) (store : List Account) : Option Account :=
  store.find? (fun u =>
    u.resetPasswordToken == some token &&
      match u.resetPasswordExpires with
      | some e => decide (now < e)
      | none => false)

/-- `resetPassword` from `auth.controller.ts`: on an exact unexpired token
match, replace the hash, clear the reset fields, increment `tokenVersion` and
clear the stored refresh token. -/
def resetPassword (now : Nat) (token password : String) (store : List Account) :
    HttpResponse × Option Account :=
  match findByResetToken now token store with
  | none => (⟨400, false, "Invalid or expired reset token"⟩, none)
  | some user =>
      (⟨200, true, "Password reset successful. Please login with your new password."⟩,
        some { user with
          password := some (hashPassword password),
          resetPasswordToken := none,
          resetPasswordExpires := none,
          tokenVersion := user.tokenVersion + 1,
          refreshToken := none,
          refreshTokenExpires := none })

/-- `changePassword` from `auth.controller.ts`.  `authUserId` is `req.user?.id`
set by `authenticate`; `findById` is `User.findById(userId).select('+password')`. -/
def changePassword (authUserId : Option Nat) (currentPassword newPassword : String)
    (findById : Nat → Option Account) : HttpResponse × Option Account :=
  match authUserId with
  | none => (⟨401, false, "Authentication required"⟩, none)
  | some uid =>
    match findById uid with
    | none => (⟨404, false, "User not found"⟩, none)
    | some user =>
      match user.password with
      | none =>
          (⟨400, false, "This account uses Google OAuth. Please use Google to sign in."⟩, none)
      | some stored =>
        if comparePassword currentPassword stored = false then
          (⟨400, false, "Current password is incorrect"⟩, none)
        else if comparePassword newPassword stored = true then
          (⟨400, false, "New password must be different from current password"⟩, none)
        else
          (⟨200, true, "Password changed successfully. Please login again with your new password."⟩,
            some { user with
              password := some (hashPassword newPassword),
              tokenVersion := user.tokenVersion + 1,
              refreshToken := none,
              refreshTokenExpires := none })

/-- The `User.findOne({emailVerificationToken: token, emailVerificationExpires:
{$gt: Date.now()}})` query of the `verifyEmail` controller. -/
def findByVerificationToken (now : Nat) (token : String) (store : List Account) :
    Option Account :=
  store.find? (fun u =>
    u.emailVerificationToken == some token &&
      match u.emailVerificationExpires with
      | some e => decide (now < e)
      | none => false)

/-- `verifyEmail` from `auth.controller.ts`. -/
def verifyEmail (now : Nat) (token : String) (store : List Account) :
    HttpResponse × Option Account :=
  match findByVerificationToken now token store with
  | none => (⟨400, false, "Invalid or expired verification token"⟩, none)
  | some user =>
    if user.isEmailVerified = true then
      (⟨400, false, "Email is already verified"⟩, none)
    else
      (⟨200, true, "Email verified successfully"⟩,
        some { user with isEmailVerified := true,
                         emailVerificationToken := none,
                         emailVerificationExpires := none })

/-- The existing-user branch of `googleCallback`: attach the Google id and mark
the email verified when no Google id is set yet. -/
def googleLink (gId : Nat) (user : Account) : Account :=
  if user.googleId = none then
    { user with googleId := some gId, isEmailVerified := true }
  else user

/-- The account mutation performed by `googleCallback` on an existing user:
the link save followed by storing the freshly issued refresh token. -/
def googleCallbackSave (secret now gId : Nat) (user : Account) : Account :=
  let linked := googleLink gId user
  { linked with
      refreshToken := some (generateRefreshToken secret now (tokenPayload linked)),
      refreshTokenExpires := some (now + refreshTokenTtl) }

/-- The refresh-session save shared by `register` and `login`: store the
freshly issued refresh token and its 7-day expiry on the user document. -/
def storeRefreshSession (secret now : Nat) (user : Account) : Account :=
  { user with
      refreshToken := some (generateRefreshToken secret now (tokenPayload user)),
      refreshTokenExpires := some (now + refreshTokenTtl) }

/-- `updateUser` from `user.controller.ts`.  `name`/`email` model the request
body fields; `none` stands for a field that is absent or JS-falsy (the code
guards each assignment with a truthiness test).  Changing the email to a
different address forces re-verification. -/
def updateUser (name email : Option String) (user : Account) : Account :=
  let u1 := match name with
    | some n => { user with name := n }
    | none => user
  match email with
  | none => u1
  | some e => if e ≠ u1.email then { u1 with email := e, isEmailVerified := false } else u1

/-- Character-level uppercase map (the semantics of `String.toUpperCase`). -/
def toUpperStr (s : String) : String := String.mk (s.data.map Char.toUpper)

/-- Whitespace trim on both ends (the semantics of `String.trim`). -/
def trimStr (s : String) : String :=
  String.mk (((s.data.dropWhile Char.isWhitespace).reverse.dropWhile
    Char.isWhitespace).reverse)

/-- The normalization `code.toUpperCase().trim()` used by `verifyBackupCode`. -/
def normalizeBackupCode (code : String) : String :=
  trimStr (toUpperStr code)

/-- `verifyBackupCode` from `lib/twoFactor.ts`: membership of the normalized
code in the stored backup-code set. -/
def verifyBackupCode (code : String) (backupCodes : List String) : Bool :=
  backupCodes.contains (normalizeBackupCode code)

/-- Modelled from the spec: the two-factor `VerifyLogin(code | backupCode)`
controller is not among the source files (only the `verifyBackupCode` library
helper and the `twoFactorBackupCodes` model field are).  Per the spec,
"a matched backup code is deleted from the set (single use)": this definition
checks the presented code with the source `verifyBackupCode` and, on a match,
deletes the matched (normalized) code from the stored set. -/
def verifyLoginBackup (code : String) (user : Account) : Bool × Account :=
  if verifyBackupCode code user.twoFactorBackupCodes then
    (true, { user with twoFactorBackupCodes :=
        user.twoFactorBackupCodes.filter (fun c => c != normalizeBackupCode code) })
  else
    (false, user)

/-- `isOwnerOrAdmin` from `middleware/authorize.ts`. -/
def isOwnerOrAdmin (resourceUserId : Nat) (reqUser : Option Principal) : Bool :=
  match reqUser with
  | none => false
  | some u =>
    if u.role = Role.admin then true
    else u.id == resourceUserId

/-- One account-mutating save step of the flow controller / user controller:
`a'` is the document written by some operation that loaded `a`. -/
def stepSaves (secret now : Nat) (a a' : Account) : Prop :=
  (∃ pw, (login secret now (some a) pw).2.1 = some a') ∨
  (∃ tok, (refreshToken secret now tok (fun _ => some a)).2.1 = some a') ∨
  (∃ tok, (logout secret now tok (fun _ => some a)).2 = some a') ∨
  (∃ rt, (forgotPassword now rt (some a)).2.1 = some a') ∨
  (∃ tk pw, (resetPassword now tk pw [a]).2 = some a') ∨
  (∃ cur npw, (changePassword (some a.id) cur npw (fun _ => some a)).2 = some a') ∨
  (∃ tk, (verifyEmail now tk [a]).2 = some a') ∨
  (∃ n e, updateUser n e a = a') ∨
  (∃ gId, googleCallbackSave secret now gId a = a') ∨
  (storeRefreshSession secret now a = a')

/-- A concrete verified account used to instantiate theorems. -/
def baseAccount : Account :=
  { id := 1, name := "Ana", email := "a@x.io",
    password := some (hashPassword "pw1"),
    googleId := none, role := Role.user, isEmailVerified := true,
    emailVerificationToken := none, emailVerificationExpires := none,
    isTwoFactorEnabled := false, twoFactorSecret := none, twoFactorBackupCodes := [],
    tokenVersion := 0, refreshToken := none, refreshTokenExpires := none,
    resetPasswordToken := none, resetPasswordExpires := none }

/-- `baseAccount` with a pending password-reset token (expires at t = 10). -/
def resetReadyAccount : Account :=
  { baseAccount with resetPasswordToken := some "tk", resetPasswordExpires := some 10 }

/-- The document written by a successful `resetPassword` on `resetReadyAccount`. -/
def resetDoneAccount : Account :=
  { resetReadyAccount with
      password := some (hashPassword "pw2"),
      resetPasswordToken := none, resetPasswordExpires := none,
      tokenVersion := resetReadyAccount.tokenVersion + 1,
      refreshToken := none, refreshTokenExpires := none }

/-- `baseAccount` with a live refresh session (token and expiry at t = 1000). -/
def sessionAccount : Account :=
  { baseAccount with
      refreshToken := some (Token.signed (tokenPayload baseAccount) 1000 0),
      refreshTokenExpires := some 1000 }

/-- The stored refresh token of `sessionAccount`, signed with secret 0. -/
def sessionTok : Token := Token.signed (tokenPayload baseAccount) 1000 0

/-- `baseAccount` with an unverified email. -/
def unverifiedBase : Account := { baseAccount with isEmailVerified := false }

/-- An unverified account holding a live refresh session. -/
def unverifiedAccount : Account :=
  { unverifiedBase with
      refreshToken := some (Token.signed (tokenPayload unverifiedBase) 1000 0),
      refreshTokenExpires := some 1000 }

/-- `baseAccount` with two-factor enabled and one stored backup code. -/
def twoFAAccount : Account :=
  { baseAccount with isTwoFactorEnabled := true, twoFactorBackupCodes := ["AB12CD34"] }

/-! ## Helper lemmas -/

theorem contains_filter_ne (l : List String) (n : String) :
    (l.filter (fun c => c != n)).contains n = false := by
  rw [Bool.eq_false_iff]
  intro hcon
  simp at hcon

theorem find?_singleton {α : Type} (p : α → Bool) (x y : α)
    (h : List.find? p [x] = some y) : y = x := by
  by_cases hp : p x = true <;> simp [List.find?, hp] at h
  exact h.symm

@[simp] theorem tokenPayload_userId (u : Account) : (tokenPayload u).userId = u.id := rfl

@[simp] theorem tokenPayload_tokenVersion (u : Account) :
    (tokenPayload u).tokenVersion = u.tokenVersion := rfl

/-! ## Claims -/

/-- Claim C3: a `Login` attempt against an email with no account and one
against an existing account with a wrong password produce the identical
response: status 401 with the same invalid-credentials message, so the
response does not reveal whether the account exists. -/
theorem c3_login_enumeration_resistant (secret now : Nat) (a : Account)
    (stored pw : String) (hpw : a.password = some stored)
    (hbad : comparePassword pw stored = false) :
    (login secret now none pw).1 = (login secret now (some a) pw).1 ∧
    (login secret now none pw).1 = ⟨401, false, "Invalid email or password"⟩ := by
  constructor
  · simp [login, hpw, hbad]
  · rfl

theorem c3_login_enumeration_resistant_witness :
    (login 0 5 none "wrong").1 = (login 0 5 (some baseAccount) "wrong").1 ∧
    (login 0 5 none "wrong").1 = ⟨401, false, "Invalid email or password"⟩ :=
  c3_login_enumeration_resistant 0 5 baseAccount (hashPassword "pw1") "wrong"
    rfl (by decide)

/-- Claim C5: backup codes are single-use — for an account with two-factor
enabled, verifying a stored backup code at login succeeds, the matched
(normalized) code is removed from the stored set, and a second attempt with
the same code fails. -/
theorem c5_backup_code_single_use (a : Account) (code : String)
    (_h2fa : a.isTwoFactorEnabled = true)
    (hmem : verifyBackupCode code a.twoFactorBackupCodes = true) :
    (verifyLoginBackup code a).1 = true ∧
    normalizeBackupCode code ∉ (verifyLoginBackup code a).2.twoFactorBackupCodes ∧
    (verifyLoginBackup code (verifyLoginBackup code a).2).1 = false := by
  refine ⟨?_, ?_, ?_⟩
  · simp [verifyLoginBackup, hmem]
  · simp only [verifyLoginBackup, hmem, if_true]
    intro hmem2
    have := (List.mem_filter.mp hmem2).2
    simp at this
  · simp only [verifyLoginBackup, hmem, if_true]
    simp [verifyBackupCode, contains_filter_ne]

theorem c5_backup_code_single_use_witness :
    (verifyLoginBackup "ab12cd34" twoFAAccount).1 = true ∧
    normalizeBackupCode "ab12cd34" ∉
      (verifyLoginBackup "ab12cd34" twoFAAccount).2.twoFactorBackupCodes ∧
    (verifyLoginBackup "ab12cd34" (verifyLoginBackup "ab12cd34" twoFAAccount).2).1 = false :=
  c5_backup_code_single_use twoFAAccount "ab12cd34" rfl (by decide)

/-- Claim C6: `ForgotPassword` always answers 200 with the same generic
message whether or not the account exists; with no account nothing is saved
and no email is dispatched; with an account only the reset token and its
1-hour expiry are written (overwriting any prior reset token), every other
field unchanged. -/
theorem c6_forgotPassword_frame (now : Nat) (rt : String) (a : Account) :
    (forgotPassword now rt none).1 =
      ⟨200, true, "If an account exists with this email, a password reset link has been sent"⟩ ∧
    (forgotPassword now rt none).2.1 = none ∧
    (forgotPassword now rt none).2.2 = false ∧
    (forgotPassword now rt (some a)).1 = (forgotPassword now rt none).1 ∧
    (forgotPassword now rt (some a)).2.1 =
      some { a with resetPasswordToken := some rt,
                    resetPasswordExpires := some (now + 60 * 60 * 1000) } :=
  ⟨rfl, rfl, rfl, rfl, rfl⟩

/-- Claim C7: `Logout` returns success (200) for every input; when the token
verifies and resolves to a known account it clears the stored refresh token
and expiry; on an already-cleared account a repeated call still returns 200
and either saves nothing or saves the unchanged account state. -/
theorem c7_logout_idempotent (secret now : Nat) (tok : Option Token)
    (findById : Nat → Option Account) :
    (logout secret now tok findById).1 = ⟨200, true, "Logout successful"⟩ ∧
    (∀ t p a, tok = some t → verifyToken secret now t = some p →
      findById p.userId = some a →
      (logout secret now tok findById).2 =
        some { a with refreshToken := none, refreshTokenExpires := none }) ∧
    (∀ a, a.refreshToken = none → a.refreshTokenExpires = none →
      (logout secret now tok (fun _ => some a)).1 = ⟨200, true, "Logout successful"⟩ ∧
      ((logout secret now tok (fun _ => some a)).2 = none ∨
        (logout secret now tok (fun _ => some a)).2 = some a)) := by
  refine ⟨rfl, ?_, ?_⟩
  · rintro t p a rfl hv hf
    simp [logout, hv, hf]
  · intro a h1 h2
    refine ⟨rfl, ?_⟩
    cases tok with
    | none => exact Or.inl rfl
    | some t =>
      cases hv : verifyToken secret now t with
      | none => exact Or.inl (by simp [logout, hv])
      | some p =>
        refine Or.inr ?_
        simp only [logout, hv]
        have : { a with refreshToken := none, refreshTokenExpires := none } = a := by
          cases a
          simp_all
        rw [this]

theorem c7_logout_idempotent_witness :
    (logout 0 5 (some sessionTok) (fun _ => some sessionAccount)).2 =
      some { sessionAccount with refreshToken := none, refreshTokenExpires := none } ∧
    ((logout 0 5 (some sessionTok) (fun _ => some baseAccount)).2 = none ∨
      (logout 0 5 (some sessionTok) (fun _ => some baseAccount)).2 = some baseAccount) := by
  refine ⟨?_, ?_⟩
  · exact (c7_logout_idempotent 0 5 (some sessionTok) (fun _ => some sessionAccount)).2.1
      sessionTok (tokenPayload baseAccount) sessionAccount rfl (by decide) rfl
  · exact ((c7_logout_idempotent 0 5 (some sessionTok) (fun _ => some baseAccount)).2.2
      baseAccount rfl rfl).2

/-- Claim C8: the ownership predicate grants access iff a principal is
attached to the request and either its role is admin or its id equals the
resource owner's id; with no principal attached it always denies. -/
theorem c8_isOwnerOrAdmin_characterization (resourceUserId : Nat)
    (reqUser : Option Principal) :
    isOwnerOrAdmin resourceUserId none = false ∧
    (isOwnerOrAdmin resourceUserId reqUser = true ↔
      ∃ u, reqUser = some u ∧ (u.role = Role.admin ∨ u.id = resourceUserId)) := by
  refine ⟨rfl, ?_⟩
  cases reqUser with
  | none => simp [isOwnerOrAdmin]
  | some u =>
    by_cases h : u.role = Role.admin <;> simp [isOwnerOrAdmin, h]

/-- Claim C10: updating a profile with an email different from the stored one
resets `isEmailVerified` to `false`; updating with the stored email, or with
only a name, leaves the flag (and, for a same-email update without a name,
the whole record) unchanged. -/
theorem c10_updateUser_email_reverification (a : Account) (n e : String) :
    (e ≠ a.email →
      (updateUser none (some e) a).isEmailVerified = false ∧
      (updateUser (some n) (some e) a).isEmailVerified = false) ∧
    updateUser none (some a.email) a = a ∧
    (updateUser (some n) (some a.email) a).isEmailVerified = a.isEmailVerified ∧
    updateUser (some n) none a = { a with name := n } := by
  refine ⟨?_, ?_, ?_, rfl⟩
  · intro h
    constructor <;> simp [updateUser, h]
  · simp [updateUser]
  · simp [updateUser]

/-- Claim C9 (implicit): the `Refresh` path does not check email
verification — an unverified account whose stored refresh token matches the
presented one (unexpired, version equal) refreshes successfully and receives
a new access token, while `Login` with the correct password rejects the same
account with 403 `EMAIL_NOT_VERIFIED` and the authorization guard rejects its
unexpired version-matching access tokens with 403. -/
theorem c9_refresh_skips_email_verification (secret now e ex : Nat) (a : Account)
    (stored pw : String)
    (hver : a.isEmailVerified = false)
    (htok : a.refreshToken = some (Token.signed (tokenPayload a) e secret))
    (hexp : a.refreshTokenExpires = some ex)
    (hfresh : ¬ ex < now) (hlive : now < e)
    (hpw : a.password = some stored) (hcmp : comparePassword pw stored = true) :
    (refreshToken secret now (some (Token.signed (tokenPayload a) e secret))
        (fun _ => some a)).1 = ⟨200, true, "Token refreshed successfully"⟩ ∧
    (refreshToken secret now (some (Token.signed (tokenPayload a) e secret))
        (fun _ => some a)).2.2 = some (generateAccessToken secret now (tokenPayload a)) ∧
    (login secret now (some a) pw).1 =
      ⟨403, false,
        "Please verify your email before logging in. Check your inbox for the verification email."⟩ ∧
    (∀ e2, now < e2 →
      authenticate secret now (some (Token.signed (tokenPayload a) e2 secret))
          (fun _ => some a) =
        AuthResult.denied
          ⟨403, false, "Please verify your email before accessing this resource."⟩) := by
  have hv : verifyToken secret now (Token.signed (tokenPayload a) e secret) =
      some (tokenPayload a) := by
    simp [verifyToken, hlive]
  refine ⟨?_, ?_, ?_, ?_⟩
  · simp [refreshToken, hv, htok, refreshExpired, hexp, hfresh]
  · simp [refreshToken, hv, htok, refreshExpired, hexp, hfresh]
  · simp [login, hpw, hcmp, hver]
  · intro e2 h2
    have hv2 : verifyToken secret now (Token.signed (tokenPayload a) e2 secret) =
        some (tokenPayload a) := by
      simp [verifyToken, h2]
    simp [authenticate, hv2, hver]

theorem c9_refresh_skips_email_verification_witness :
    (refreshToken 0 5 (some (Token.signed (tokenPayload unverifiedAccount) 1000 0))
        (fun _ => some unverifiedAccount)).1 = ⟨200, true, "Token refreshed successfully"⟩ ∧
    (login 0 5 (some unverifiedAccount) "pw1").1 =
      ⟨403, false,
        "Please verify your email before logging in. Check your inbox for the verification email."⟩ := by
  have h := c9_refresh_skips_email_verification 0 5 1000 1000 unverifiedAccount
    (hashPassword "pw1") "pw1" rfl (by decide) rfl (by decide) (by decide) rfl (by decide)
  exact ⟨h.1, h.2.2.1⟩

/-- The guard accepts a well-signed bearer token exactly when it is unexpired,
the looked-up account's `tokenVersion` equals the embedded one, and the
account's email is verified. -/
theorem authenticate_granted_iff (secret now e : Nat) (p : JWTPayload)
    (findById : Nat → Option Account) (a : Account)
    (hfind : findById p.userId = some a) :
    (∃ pr, authenticate secret now (some (Token.signed p e secret)) findById =
        AuthResult.granted pr) ↔
      (now < e ∧ a.tokenVersion = p.tokenVersion ∧ a.isEmailVerified = true) := by
  by_cases hlt : now < e
  · have hv : verifyToken secret now (Token.signed p e secret) = some p := by
      simp [verifyToken, hlt]
    by_cases hver : a.tokenVersion = p.tokenVersion
    · by_cases hmail : a.isEmailVerified = true
      · have hg : authenticate secret now (some (Token.signed p e secret)) findById =
            AuthResult.granted ⟨a.id, a.email, a.role⟩ := by
          simp [authenticate, hv, hfind, hver, hmail]
        simp [hg, hlt, hver, hmail]
      · have hmail2 : a.isEmailVerified = false := by
          cases hb : a.isEmailVerified
          · rfl
          · exact absurd hb hmail
        have hg : authenticate secret now (some (Token.signed p e secret)) findById =
            AuthResult.denied
              ⟨403, false, "Please verify your email before accessing this resource."⟩ := by
          simp [authenticate, hv, hfind, hver, hmail2]
        simp [hg, hlt, hver, hmail2]
    · have hg : authenticate secret now (some (Token.signed p e secret)) findById =
          AuthResult.denied
            ⟨401, false, "Token has been invalidated. Please login again."⟩ := by
        simp [authenticate, hv, hfind, hver]
      simp [hg, hlt, hver]
  · have hv : verifyToken secret now (Token.signed p e secret) = none := by
      simp [verifyToken, hlt]
    have hg : authenticate secret now (some (Token.signed p e secret)) findById =
        AuthResult.denied
          ⟨401, false, "Invalid or expired token. Please login again."⟩ := by
      simp [authenticate, hv]
    simp [hg, hlt]

/-- Claim C2 as frozen is refuted by an unverified account: its unexpired
access token embeds the live `tokenVersion`, yet the guard denies it (403),
so "guard accepts iff not expired and stored tokenVersion equals v" fails. -/
theorem c2_counterexample :
    ¬ ((∃ pr, authenticate 0 5
          (some (generateAccessToken 0 0 (tokenPayload unverifiedAccount)))
          (fun _ => some unverifiedAccount) = AuthResult.granted pr) ↔
        (5 < 0 + accessTokenTtl ∧
          unverifiedAccount.tokenVersion = (tokenPayload unverifiedAccount).tokenVersion)) := by
  intro h
  obtain ⟨pr, hpr⟩ := h.mpr ⟨by norm_num [accessTokenTtl], rfl⟩
  have hd : authenticate 0 5
      (some (generateAccessToken 0 0 (tokenPayload unverifiedAccount)))
      (fun _ => some unverifiedAccount) =
      AuthResult.denied
        ⟨403, false, "Please verify your email before accessing this resource."⟩ := by
    decide
  rw [hd] at hpr
  exact AuthResult.noConfusion hpr

/-- Claim C2, amended: a token produced by `generateAccessToken` or
`generateRefreshToken` for claims with `tokenVersion = v` passes the guard
iff it is unexpired, the stored `tokenVersion` of the (existing) account
still equals `v`, and additionally the account's email is verified; and on
every other input — tokens signed with a different key (unsigned/tampered),
non-JWT strings, or expired tokens — `verifyToken` returns `none` ("invalid")
instead of raising an error. -/
theorem c2_token_roundtrip (secret now issuedAt : Nat) (p : JWTPayload)
    (findById : Nat → Option Account) (a : Account)
    (hfind : findById p.userId = some a) :
    ((∃ pr, authenticate secret now (some (generateAccessToken secret issuedAt p)) findById =
        AuthResult.granted pr) ↔
      (now < issuedAt + accessTokenTtl ∧ a.tokenVersion = p.tokenVersion ∧
        a.isEmailVerified = true)) ∧
    ((∃ pr, authenticate secret now (some (generateRefreshToken secret issuedAt p)) findById =
        AuthResult.granted pr) ↔
      (now < issuedAt + refreshTokenTtl ∧ a.tokenVersion = p.tokenVersion ∧
        a.isEmailVerified = true)) ∧
    (∀ q en key, key ≠ secret →
      verifyToken secret now (Token.signed q en key) = none) ∧
    (∀ s, verifyToken secret now (Token.malformed s) = none) ∧
    (∀ q en, ¬ now < en → verifyToken secret now (Token.signed q en secret) = none) := by
  refine ⟨authenticate_granted_iff secret now _ p findById a hfind,
          authenticate_granted_iff secret now _ p findById a hfind, ?_, ?_, ?_⟩
  · intro q en key hk
    simp [verifyToken, hk]
  · intro s
    rfl
  · intro q en hn
    simp [verifyToken, hn]

theorem c2_token_roundtrip_witness :
    ∃ pr, authenticate 0 5 (some (generateAccessToken 0 0 (tokenPayload baseAccount)))
        (fun _ => some baseAccount) = AuthResult.granted pr :=
  ((c2_token_roundtrip 0 5 0 (tokenPayload baseAccount) (fun _ => some baseAccount)
      baseAccount rfl).1).mpr ⟨by norm_num [accessTokenTtl], rfl, rfl⟩

theorem refreshExpired_false_iff (now : Nat) (o : Option Nat) :
    refreshExpired now o = false ↔ ∃ ex, o = some ex ∧ ¬ ex < now := by
  cases o <;> simp [refreshExpired]

/-- The `refreshToken` controller never saves the user document. -/
theorem refreshToken_save_none (secret now : Nat) (tok : Option Token)
    (findById : Nat → Option Account) :
    (refreshToken secret now tok findById).2.1 = none := by
  cases tok with
  | none => rfl
  | some t =>
    cases hv : verifyToken secret now t with
    | none => simp [refreshToken, hv]
    | some p =>
      cases hf : findById p.userId with
      | none => simp [refreshToken, hv, hf]
      | some a =>
        by_cases hc : a.refreshToken ≠ some t ∨ refreshExpired now a.refreshTokenExpires = true
        · simp [refreshToken, hv, hf, hc]
        · by_cases hver : a.tokenVersion ≠ p.tokenVersion
          · simp [refreshToken, hv, hf, hc, hver]
          · simp [refreshToken, hv, hf, hc, hver]

/-- Exact success condition of the `refreshToken` controller. -/
theorem refreshToken_success_iff (secret now : Nat) (findById : Nat → Option Account)
    (t : Token) :
    (refreshToken secret now (some t) findById).1.success = true ↔
      ∃ p e a, t = Token.signed p e secret ∧ now < e ∧ findById p.userId = some a ∧
        a.refreshToken = some t ∧
        (∃ ex, a.refreshTokenExpires = some ex ∧ ¬ ex < now) ∧
        a.tokenVersion = p.tokenVersion := by
  constructor
  · intro h
    cases t with
    | malformed s => simp [refreshToken, verifyToken] at h
    | signed p0 e0 k =>
      by_cases hks : k = secret ∧ now < e0
      · obtain ⟨hk1, hlt⟩ := hks
        subst hk1
        have hv : verifyToken k now (Token.signed p0 e0 k) = some p0 := by
          simp [verifyToken, hlt]
        cases hf : findById p0.userId with
        | none => simp [refreshToken, hv, hf] at h
        | some a =>
          by_cases hrt : a.refreshToken = some (Token.signed p0 e0 k)
          · by_cases hre : refreshExpired now a.refreshTokenExpires = true
            · simp [refreshToken, hv, hf, hre] at h
            · have hre2 : refreshExpired now a.refreshTokenExpires = false := by
                cases hb : refreshExpired now a.refreshTokenExpires
                · rfl
                · exact absurd hb hre
              by_cases hver : a.tokenVersion = p0.tokenVersion
              · exact ⟨p0, e0, a, rfl, hlt, hf, hrt,
                  (refreshExpired_false_iff now _).mp hre2, hver⟩
              · simp [refreshToken, hv, hf, hrt, hre2, hver] at h
          · simp [refreshToken, hv, hf, hrt] at h
      · have hv : verifyToken secret now (Token.signed p0 e0 k) = none := by
          simp only [verifyToken, if_neg hks]
        simp [refreshToken, hv] at h
  · rintro ⟨p, e, a, rfl, hlt, hf, hrt, ⟨ex, hex, hexlt⟩, hver⟩
    have hv : verifyToken secret now (Token.signed p e secret) = some p := by
      simp [verifyToken, hlt]
    simp [refreshToken, hv, hf, hrt, refreshExpired, hex, hexlt, hver]

/-- On success, `refreshToken` emits exactly a freshly generated access token
for the loaded account. -/
theorem refreshToken_success_token (secret now : Nat) (findById : Nat → Option Account)
    (t : Token) (h : (refreshToken secret now (some t) findById).1.success = true) :
    ∃ p a, verifyToken secret now t = some p ∧ findById p.userId = some a ∧
      (refreshToken secret now (some t) findById).2.2 =
        some (generateAccessToken secret now (tokenPayload a)) := by
  obtain ⟨p, e, a, rfl, hlt, hf, hrt, ⟨ex, hex, hexlt⟩, hver⟩ :=
    (refreshToken_success_iff secret now findById t).mp h
  have hv : verifyToken secret now (Token.signed p e secret) = some p := by
    simp [verifyToken, hlt]
  refine ⟨p, a, hv, hf, ?_⟩
  simp [refreshToken, hv, hf, hrt, refreshExpired, hex, hexlt, hver]

/-- Every failing `refreshToken` response carries status 401. -/
theorem refreshToken_fail_401 (secret now : Nat) (tok : Option Token)
    (findById : Nat → Option Account)
    (h : (refreshToken secret now tok findById).1.success = false) :
    (refreshToken secret now tok findById).1.status = 401 := by
  cases tok with
  | none => rfl
  | some t =>
    cases hv : verifyToken secret now t with
    | none => simp [refreshToken, hv]
    | some p =>
      cases hf : findById p.userId with
      | none => simp [refreshToken, hv, hf]
      | some a =>
        by_cases hc : a.refreshToken ≠ some t ∨ refreshExpired now a.refreshTokenExpires = true
        · simp [refreshToken, hv, hf, hc]
        · by_cases hver : a.tokenVersion ≠ p.tokenVersion
          · simp [refreshToken, hv, hf, hc, hver]
          · simp [refreshToken, hv, hf, hc, hver] at h

/-- Claim C4: `Refresh` succeeds iff the presented token is well-signed and
unexpired, the account exists, the stored refresh token equals the presented
one with an unexpired stored expiry, and the embedded `tokenVersion` matches;
it never saves the account (no rotation, no state change on failure); on
success it issues exactly one new access token; every failure answers 401. -/
theorem c4_refresh_characterization (secret now : Nat)
    (findById : Nat → Option Account) (t : Token) :
    ((refreshToken secret now (some t) findById).1.success = true ↔
      ∃ p e a, t = Token.signed p e secret ∧ now < e ∧ findById p.userId = some a ∧
        a.refreshToken = some t ∧
        (∃ ex, a.refreshTokenExpires = some ex ∧ ¬ ex < now) ∧
        a.tokenVersion = p.tokenVersion) ∧
    (refreshToken secret now (some t) findById).2.1 = none ∧
    ((refreshToken secret now (some t) findById).1.success = true →
      ∃ p a, verifyToken secret now t = some p ∧ findById p.userId = some a ∧
        (refreshToken secret now (some t) findById).2.2 =
          some (generateAccessToken secret now (tokenPayload a))) ∧
    ((refreshToken secret now (some t) findById).1.success = false →
      (refreshToken secret now (some t) findById).1.status = 401) :=
  ⟨refreshToken_success_iff secret now findById t,
   refreshToken_save_none secret now (some t) findById,
   refreshToken_success_token secret now findById t,
   refreshToken_fail_401 secret now (some t) findById⟩

theorem c4_refresh_characterization_witness :
    (∃ p a, verifyToken 0 5 sessionTok = some p ∧
      (fun _ : Nat => some sessionAccount) p.userId = some a ∧
      (refreshToken 0 5 (some sessionTok) (fun _ : Nat => some sessionAccount)).2.2 =
        some (generateAccessToken 0 5 (tokenPayload a))) ∧
    (refreshToken 0 2000 (some sessionTok) (fun _ : Nat => some sessionAccount)).1.status
      = 401 :=
  ⟨(c4_refresh_characterization 0 5 (fun _ : Nat => some sessionAccount) sessionTok).2.2.1
      (by decide),
   (c4_refresh_characterization 0 2000 (fun _ : Nat => some sessionAccount) sessionTok).2.2.2
      (by decide)⟩

theorem login_save_version (secret now : Nat) (a a' : Account) (pw : String)
    (h : (login secret now (some a) pw).2.1 = some a') :
    a'.tokenVersion = a.tokenVersion := by
  cases hp : a.password with
  | none => simp [login, hp] at h
  | some stored =>
    by_cases hc : comparePassword pw stored = false
    · simp [login, hp, hc] at h
    · by_cases hm : a.isEmailVerified = false
      · simp [login, hp, hc, hm] at h
      · simp [login, hp, hc, hm] at h
        subst h
        rfl

theorem logout_save_version (secret now : Nat) (tok : Option Token) (a a' : Account)
    (h : (logout secret now tok (fun _ => some a)).2 = some a') :
    a'.tokenVersion = a.tokenVersion := by
  cases tok with
  | none => simp [logout] at h
  | some t =>
    cases hv : verifyToken secret now t with
    | none => simp [logout, hv] at h
    | some p =>
      simp [logout, hv] at h
      subst h
      rfl

theorem forgotPassword_save_version (now : Nat) (rt : String) (a a' : Account)
    (h : (forgotPassword now rt (some a)).2.1 = some a') :
    a'.tokenVersion = a.tokenVersion := by
  simp [forgotPassword] at h
  subst h
  rfl

/-- A successful `resetPassword` on the singleton store increments the
revocation counter by exactly one and clears the refresh session. -/
theorem resetPassword_save_fields (now : Nat) (tk pw : String) (a a' : Account)
    (h : (resetPassword now tk pw [a]).2 = some a') :
    a'.tokenVersion = a.tokenVersion + 1 ∧ a'.refreshToken = none ∧
      a'.refreshTokenExpires = none := by
  cases hf : findByResetToken now tk [a] with
  | none => simp [resetPassword, hf] at h
  | some u =>
    have hu : u = a := find?_singleton _ a u hf
    subst hu
    simp [resetPassword, hf] at h
    subst h
    exact ⟨rfl, rfl, rfl⟩

/-- A successful `changePassword` increments the revocation counter by exactly
one and clears the refresh session. -/
theorem changePassword_save_fields (cur npw : String) (a a' : Account)
    (h : (changePassword (some a.id) cur npw (fun _ => some a)).2 = some a') :
    a'.tokenVersion = a.tokenVersion + 1 ∧ a'.refreshToken = none ∧
      a'.refreshTokenExpires = none := by
  cases hp : a.password with
  | none => simp [changePassword, hp] at h
  | some stored =>
    by_cases hc : comparePassword cur stored = false
    · simp [changePassword, hp, hc] at h
    · by_cases hs : comparePassword npw stored = true
      · simp [changePassword, hp, hc, hs] at h
      · simp [changePassword, hp, hc, hs] at h
        subst h
        exact ⟨rfl, rfl, rfl⟩

theorem verifyEmail_save_version (now : Nat) (tk : String) (a a' : Account)
    (h : (verifyEmail now tk [a]).2 = some a') :
    a'.tokenVersion = a.tokenVersion := by
  cases hf : findByVerificationToken now tk [a] with
  | none => simp [verifyEmail, hf] at h
  | some u =>
    have hu : u = a := find?_singleton _ a u hf
    by_cases hv : u.isEmailVerified = true
    · simp [verifyEmail, hf, hv] at h
    · simp [verifyEmail, hf, hv] at h
      subst h
      rw [← hu]

theorem updateUser_version (n e : Option String) (a : Account) :
    (updateUser n e a).tokenVersion = a.tokenVersion := by
  cases n <;> cases e <;> simp only [updateUser] <;> split <;> rfl

theorem googleCallbackSave_version (secret now gId : Nat) (a : Account) :
    (googleCallbackSave secret now gId a).tokenVersion = a.tokenVersion := by
  by_cases h : a.googleId = none <;>
    simp [googleCallbackSave, googleLink, h]

/-- `tokenVersion` never decreases across any account-mutating save of the
flow controller or user controller. -/
theorem stepSaves_version_mono (secret now : Nat) (a a' : Account)
    (h : stepSaves secret now a a') : a.tokenVersion ≤ a'.tokenVersion := by
  rcases h with ⟨pw, h⟩ | ⟨tok, h⟩ | ⟨tok, h⟩ | ⟨rt, h⟩ | ⟨tk, pw, h⟩ |
    ⟨cur, npw, h⟩ | ⟨tk, h⟩ | ⟨n, e, h⟩ | ⟨gId, h⟩ | h
  · exact le_of_eq (login_save_version secret now a a' pw h).symm
  · rw [refreshToken_save_none] at h
    exact absurd h (by simp)
  · exact le_of_eq (logout_save_version secret now tok a a' h).symm
  · exact le_of_eq (forgotPassword_save_version now rt a a' h).symm
  · have := (resetPassword_save_fields now tk pw a a' h).1
    omega
  · have := (changePassword_save_fields cur npw a a' h).1
    omega
  · exact le_of_eq (verifyEmail_save_version now tk a a' h).symm
  · exact le_of_eq (h ▸ (updateUser_version n e a).symm)
  · exact le_of_eq (h ▸ (googleCallbackSave_version secret now gId a).symm)
  · exact le_of_eq (h ▸ rfl)

/-- Claim C1: `tokenVersion` never decreases across any operation; a
successful `ResetPassword` or `ChangePassword` increments it by exactly one
and clears the stored refresh token; afterwards every token embedding any
older version is rejected by both validation paths — the authorization guard
never grants it and the refresh path fails with 401. -/
theorem c1_tokenVersion_invariant (secret now : Nat) (a a' : Account) :
    (stepSaves secret now a a' → a.tokenVersion ≤ a'.tokenVersion) ∧
    (∀ tk pw, (resetPassword now tk pw [a]).2 = some a' →
      a'.tokenVersion = a.tokenVersion + 1 ∧ a'.refreshToken = none ∧
        a'.refreshTokenExpires = none) ∧
    (∀ cur npw, (changePassword (some a.id) cur npw (fun _ => some a)).2 = some a' →
      a'.tokenVersion = a.tokenVersion + 1 ∧ a'.refreshToken = none ∧
        a'.refreshTokenExpires = none) ∧
    (∀ p e, p.tokenVersion ≤ a.tokenVersion → a'.tokenVersion = a.tokenVersion + 1 →
      (∀ pr, authenticate secret now (some (Token.signed p e secret)) (fun _ => some a') ≠
        AuthResult.granted pr) ∧
      (refreshToken secret now (some (Token.signed p e secret))
          (fun _ => some a')).1.success = false ∧
      (refreshToken secret now (some (Token.signed p e secret))
          (fun _ => some a')).1.status = 401) := by
  refine ⟨stepSaves_version_mono secret now a a',
    fun tk pw h => resetPassword_save_fields now tk pw a a' h,
    fun cur npw h => changePassword_save_fields cur npw a a' h, ?_⟩
  intro p e hple hinc
  have hne : a'.tokenVersion ≠ p.tokenVersion := by omega
  have hsf : (refreshToken secret now (some (Token.signed p e secret))
      (fun _ => some a')).1.success = false := by
    rw [Bool.eq_false_iff]
    intro hs
    obtain ⟨p2, e2, a2, heq, hlt2, hf2, hrt2, hex2, hver2⟩ :=
      (refreshToken_success_iff secret now (fun _ => some a')
        (Token.signed p e secret)).mp hs
    injection heq with hp2 he2 hk2
    have ha2 : a' = a2 := by simpa using hf2
    subst hp2
    subst ha2
    exact hne hver2
  refine ⟨?_, hsf, refreshToken_fail_401 secret now _ _ hsf⟩
  intro pr hpr
  by_cases hlt : now < e
  · have hv : verifyToken secret now (Token.signed p e secret) = some p := by
      simp [verifyToken, hlt]
    simp [authenticate, hv, hne] at hpr
  · have hv : verifyToken secret now (Token.signed p e secret) = none := by
      simp [verifyToken, hlt]
    simp [authenticate, hv] at hpr

theorem c1_tokenVersion_invariant_witness :
    resetReadyAccount.tokenVersion ≤ resetDoneAccount.tokenVersion ∧
    (resetDoneAccount.tokenVersion = resetReadyAccount.tokenVersion + 1 ∧
      resetDoneAccount.refreshToken = none ∧
      resetDoneAccount.refreshTokenExpires = none) ∧
    (refreshToken 0 5 (some (Token.signed (tokenPayload resetReadyAccount) 99 0))
        (fun _ => some resetDoneAccount)).1.status = 401 := by
  have h := c1_tokenVersion_invariant 0 5 resetReadyAccount resetDoneAccount
  have h2 := h.2.1 "tk" "pw2" (by decide)
  exact ⟨h.1 (Or.inr (Or.inr (Or.inr (Or.inr (Or.inl ⟨"tk", "pw2", by decide⟩))))), h2,
    (h.2.2.2 (tokenPayload resetReadyAccount) 99 (by decide) h2.1).2.2⟩

theorem c10_updateUser_email_reverification_witness :
    (updateUser none (some "b@x.io") baseAccount).isEmailVerified = false ∧
    (updateUser (some "Bea") (some "b@x.io") baseAccount).isEmailVerified = false :=
  (c10_updateUser_email_reverification baseAccount "Bea" "b@x.io").1 (by decide)

end NodeAuth
